import Mathlib

/-!
Verification of the `mod-server-auto-shutdown` module
(`src/ServerAutoShutdown.cpp`).

Shallow embedding conventions:

* `time_t` instants are modelled as `Nat`: seconds since the epoch.  The
  local-time breakdown used by the code (`Acore::Time::TimeBreakdown` /
  `mktime`) is modelled with fixed 86400-second days (the spec declares
  time-zone handling and DST out of scope), so the calendar date of an
  instant `t` is day `t / 86400` and day 0 (the Unix epoch) is a Thursday,
  i.e. `tm_wday` of day `d` is `(d + 4) % 7` (Sunday = 0).
* `mktime` renormalises the whole `tm` struct in place: overflowed
  `tm_mday` values roll over month/year boundaries, and `tm_wday` is
  recomputed for the (shifted) date.  In the fixed-day model an instant
  built from a `tm` holding date `d0 + extra` days with time-of-day `tod`
  is `(d0 + extra) * 86400 + tod`, and the refreshed `tm_wday` is
  `(w0 + extra) % 7`.  The weekday loop of `GetNextShutdownTime` therefore
  only needs the accumulated `extra` day count: at every point the struct's
  `tm_wday` equals `(w0 + extra) % 7` where `extra` is the accumulation at
  the last `mktime` call.
* `uint32`/`uint64` arithmetic in `Init` is modelled with explicit
  `% 2^32` / `% 2^64` reductions.
* C-side truncating comparisons `x - 10 > t` / `x - 10 <= t` on signed
  `time_t` coincide with Lean's truncated `Nat` subtraction for
  non-negative instants (both sides treat `x < 10` as "already passed"),
  so `Nat` subtraction is a faithful model on the non-negative domain.
-/

namespace ServerAutoShutdown

/-- The `DAY` constant of the source (seconds per day). -/
def DAY : Nat := 86400

/-- The `HOUR` constant of the source (seconds per hour). -/
def HOUR : Nat := 3600

/-- Weekday (Sunday = 0 … Saturday = 6) of epoch day `d`; day 0
(1970-01-01) is a Thursday. -/
def wdayOfDay (d : Nat) : Nat := (d + 4) % 7

/-- The `for (weekdayIndex = 0; weekdayIndex < 7; ...)` loop of
`GetNextShutdownTime` (src/ServerAutoShutdown.cpp:40-49) followed by its
fallback (lines 50-51).  `base` is the instant of `now`'s calendar date at
the target time-of-day, `w0` the original `tm_wday`, `extra` the day count
already accumulated into `tm_mday` by earlier iterations (the source
mutates `timeLocal.tm_mday += weekdayIndex` cumulatively, and each
`mktime` call refreshes `tm_wday` to `(w0 + extra) % 7`). -/
def maskLoop (mask timestamp base w0 : Nat) : Nat → List Nat → Nat
  | extra, [] => base + (extra + 7) * DAY
  | extra, k :: ks =>
    if mask.testBit ((w0 + extra + k) % 7) then
      if base + (extra + k) * DAY - 10 > timestamp then base + (extra + k) * DAY
      else maskLoop mask timestamp base w0 (extra + k) ks
    else maskLoop mask timestamp base w0 extra ks

/-- `GetNextShutdownTime` (src/ServerAutoShutdown.cpp:31-58): breaks
`timestamp` into a local `tm`, replaces hour/minute/second with the target
time-of-day, then either runs the weekday-mask loop or the interval
computation. -/
def getNextShutdownTime (timestamp weekdayMask restartDays restartHour restartMinute restartSecond : Nat) : Nat :=
  let base := timestamp / DAY * DAY + (restartHour * 3600 + restartMinute * 60 + restartSecond)
  if weekdayMask ≠ 0 then
    maskLoop weekdayMask timestamp base (wdayOfDay (timestamp / DAY)) 0 [0, 1, 2, 3, 4, 5, 6]
  else if restartDays > 1 ∨ base - 10 ≤ timestamp then base + DAY * restartDays
  else base

/-- C3: In interval mode (`weekdayMask == 0`) the candidate `now`'s date at
the target time-of-day is advanced by `intervalDays` days iff
`intervalDays > 1` or the candidate is not more than 10 seconds in the
future; for `intervalDays = 1` the result is today's target when `now` is
more than 10 seconds before it, and tomorrow's target otherwise. -/
theorem interval_mode_next_time (ts days hh mi ss : Nat) (hd : 1 ≤ days) :
    (getNextShutdownTime ts 0 days hh mi ss
        = ts / DAY * DAY + (hh * 3600 + mi * 60 + ss) + DAY * days
      ↔ days > 1 ∨ ts / DAY * DAY + (hh * 3600 + mi * 60 + ss) ≤ ts + 10) ∧
    (days = 1 →
      getNextShutdownTime ts 0 days hh mi ss
        = if ts + 10 < ts / DAY * DAY + (hh * 3600 + mi * 60 + ss)
          then ts / DAY * DAY + (hh * 3600 + mi * 60 + ss)
          else ts / DAY * DAY + (hh * 3600 + mi * 60 + ss) + DAY) := by
  simp only [getNextShutdownTime, DAY]
  constructor
  · split_ifs <;> omega
  · intro h
    subst h
    split_ifs <;> omega

/-- Witness for `interval_mode_next_time` at `ts = 1000`, `days = 1`,
target 04:00:00 (candidate 14400, more than 10 s ahead of `now`). -/
theorem interval_mode_next_time_witness :
    (getNextShutdownTime 1000 0 1 4 0 0
        = 1000 / DAY * DAY + (4 * 3600 + 0 * 60 + 0) + DAY * 1
      ↔ 1 > 1 ∨ 1000 / DAY * DAY + (4 * 3600 + 0 * 60 + 0) ≤ 1000 + 10) ∧
    (1 = 1 →
      getNextShutdownTime 1000 0 1 4 0 0
        = if 1000 + 10 < 1000 / DAY * DAY + (4 * 3600 + 0 * 60 + 0)
          then 1000 / DAY * DAY + (4 * 3600 + 0 * 60 + 0)
          else 1000 / DAY * DAY + (4 * 3600 + 0 * 60 + 0) + DAY) :=
  interval_mode_next_time 1000 1 4 0 0 (by decide)

/-- C1: Evaluation of the code at a failing input.  `now = 86395`
(Thursday 23:59:55 of epoch day 0), `weekdayMask = 96` (Friday and
Saturday), target time-of-day 00:00:05.  The earliest offset `k` in 0..6
with the mask bit of `(now.weekday + k) % 7` set and candidate
`now.date + k` days at 00:00:05 satisfying `instant - 10 > now` is
`k = 2` (Saturday 00:00:05 = 172805), but the code returns 691205 =
`now`'s date plus 8 days at 00:00:05: the failed Friday candidate already
advanced `tm_mday`, and the `mktime` call refreshed `tm_wday`, shifting
every later mask test. -/
theorem weekday_mask_earliest_offset_violated :
    getNextShutdownTime 86395 96 1 0 0 5 = 691205 ∧
    getNextShutdownTime 86395 96 1 0 0 5 ≠ 5 + 2 * DAY ∧
    (Nat.testBit 96 ((4 + 2) % 7) ∧ 86395 + 10 < 5 + 2 * DAY) := by
  decide

/-- C2: Evaluation of the code at a failing input.  `now = 86395`
(Thursday 23:59:55 of epoch day 0), `weekdayMask = 32` (Friday only),
target 00:00:05.  No offset in 0..6 qualifies (the only masked offset,
`k = 1`, fails the 10-second guard), so per the claim the result should be
the original target-time candidate plus exactly 7 days (604805); the code
returns 691205 (8 days) because the failed offset-1 hit had already
advanced `tm_mday`. -/
theorem weekday_mask_fallback_violated :
    getNextShutdownTime 86395 32 1 0 0 5 = 691205 ∧
    getNextShutdownTime 86395 32 1 0 0 5 ≠ 5 + 7 * DAY ∧
    (∀ k, k < 7 → ¬(Nat.testBit 32 ((4 + k) % 7) ∧ 86395 + 10 < 5 + k * DAY)) := by
  decide

/-- C5 counterexample: `now = 35990`, mask `2^4` (Thursday only, and
`now` is on a Thursday), target 10:00:00 = instant 36000.  `now` is 10
seconds before the target, so the guard `instant - 10 > now` fails, the
fallback fires, and the result 640800 is `now + 7` days `+ 10` seconds —
strictly more than 7 days after `now`, refuting the claimed 7-day bound
for single-bit masks. -/
theorem single_bit_mask_over_seven_days :
    35990 + 7 * DAY < getNextShutdownTime 35990 (2 ^ 4) 1 10 0 0 := by
  decide

set_option maxHeartbeats 2000000 in
/-- For a single-bit mask the weekday loop, started on day `S` with
time-of-day `tod`, never lands more than 7 days and 10 seconds past `ts`,
and always lands at the target time-of-day. -/
lemma maskLoop_single_bound (j w0 S tod ts : Nat) (hj : j < 7) (hw : w0 < 7)
    (htod : tod < 86400) (h1 : S * 86400 ≤ ts) (h2 : ts < S * 86400 + 86400) :
    maskLoop (2 ^ j) ts (S * 86400 + tod) w0 0 [0, 1, 2, 3, 4, 5, 6] ≤ ts + 7 * 86400 + 10 ∧
    maskLoop (2 ^ j) ts (S * 86400 + tod) w0 0 [0, 1, 2, 3, 4, 5, 6] % 86400 = tod := by
  interval_cases j <;> interval_cases w0 <;>
    simp [maskLoop, Nat.testBit, DAY] <;>
    split_ifs <;> omega

/-- C5 (amended): for every single-bit weekday mask `2^j` and every `now`,
the returned instant is at most 7 days plus 10 seconds after `now` (the
10-second guard can push the fallback just past a full week), and it lands
exactly on the target hour, minute and second of some calendar day. -/
theorem single_bit_mask_bound (ts days hh mi ss j : Nat)
    (hj : j < 7) (hhh : hh ≤ 23) (hmi : mi ≤ 59) (hss : ss ≤ 59) :
    getNextShutdownTime ts (2 ^ j) days hh mi ss ≤ ts + 7 * DAY + 10 ∧
    getNextShutdownTime ts (2 ^ j) days hh mi ss % DAY = hh * 3600 + mi * 60 + ss := by
  have hmask : (2 : Nat) ^ j ≠ 0 := by positivity
  have hw : wdayOfDay (ts / DAY) < 7 := Nat.mod_lt _ (by omega)
  have hkey := maskLoop_single_bound j (wdayOfDay (ts / DAY)) (ts / 86400)
    (hh * 3600 + mi * 60 + ss) ts hj hw (by omega) (by omega) (by omega)
  simp only [getNextShutdownTime, DAY, if_pos hmask, ne_eq, hmask, not_false_eq_true,
    if_true, ite_true]
  simpa [DAY] using hkey

/-- Witness for `single_bit_mask_bound` at `ts = 0` (Thursday 00:00:00),
mask `2^0` (Sunday only), target 00:00:00: the result is Sunday midnight,
three days ahead. -/
theorem single_bit_mask_bound_witness :
    getNextShutdownTime 0 (2 ^ 0) 1 0 0 0 ≤ 0 + 7 * DAY + 10 ∧
    getNextShutdownTime 0 (2 ^ 0) 1 0 0 0 % DAY = 0 * 3600 + 0 * 60 + 0 :=
  single_bit_mask_bound 0 1 0 0 0 0 (by decide) (by decide) (by decide) (by decide)

/-- Reduction of a `uint32` value. -/
def u32of (a : Nat) : Nat := a % 4294967296

/-- Wrapping `uint32` subtraction. -/
def u32sub (a b : Nat) : Nat := (a % 4294967296 + 4294967296 - b % 4294967296) % 4294967296

/-- Wrapping `uint64` subtraction. -/
def u64sub (a b : Nat) : Nat :=
  (a % 18446744073709551616 + 18446744073709551616 - b % 18446744073709551616) %
    18446744073709551616

/-- The scheduling quantities `Init` computes at
src/ServerAutoShutdown.cpp:136 and 151-160: `diffToShutdown`,
`timeToPreAnnounce`, `diffToPreAnnounce`, and the (possibly overwritten)
`preAnnounceSeconds` captured by the announce task — the effective lead
used both in the broadcast message and as the grace period of
`ShutdownServ`. -/
structure InitSchedule where
  diffToShutdown : Nat
  timeToPreAnnounce : Nat
  diffToPreAnnounce : Nat
  preAnnounceSeconds : Nat
deriving DecidableEq

/-- Lines 136 and 151-160 of src/ServerAutoShutdown.cpp:
`diffToShutdown = nextResetTime - (uint32)nowTime` (`uint64` arithmetic
truncated into `uint32`), `timeToPreAnnounce = (uint32)nextResetTime -
preAnnounceSeconds`, `diffToPreAnnounce = timeToPreAnnounce -
(uint32)nowTime`, then the clamp: when `diffToShutdown <
preAnnounceSeconds` the announce is re-pointed at `now + 1` with
`diffToPreAnnounce = 1` and the effective lead becomes `diffToShutdown`. -/
def initSchedule (nowTime nextResetTime preAnnounceSeconds : Nat) : InitSchedule :=
  let diffToShutdown := u32of (u64sub nextResetTime (u32of nowTime))
  let timeToPreAnnounce := u32sub (u32of nextResetTime) preAnnounceSeconds
  let diffToPreAnnounce := u32sub timeToPreAnnounce (u32of nowTime)
  if diffToShutdown < preAnnounceSeconds then
    ⟨diffToShutdown, u32of (u32of nowTime + 1), 1, diffToShutdown⟩
  else
    ⟨diffToShutdown, timeToPreAnnounce, diffToPreAnnounce, preAnnounceSeconds⟩

/-- C4: when the configured lead exceeds the remaining time
(`secondsToShutdown < leadSeconds`) the announce task is scheduled to fire
at `now + 1` (relative delay 1) and the effective lead — used in the
broadcast message and as the grace period of the shutdown request —
equals the full remaining time; otherwise the announce fires at
`nextShutdown - leadSeconds` with the configured lead.  The range
hypotheses say the instants are representable in `uint32`, as they are for
any realistic wall clock. -/
theorem init_preannounce_clamping (now next lead : Nat)
    (h1 : now ≤ next) (h2 : next < 2147483648) (h3 : lead ≤ 86400) :
    (next - now < lead →
      (initSchedule now next lead).diffToPreAnnounce = 1 ∧
      (initSchedule now next lead).timeToPreAnnounce = now + 1 ∧
      (initSchedule now next lead).preAnnounceSeconds = next - now) ∧
    (lead ≤ next - now →
      now + (initSchedule now next lead).diffToPreAnnounce = next - lead ∧
      (initSchedule now next lead).timeToPreAnnounce = next - lead ∧
      (initSchedule now next lead).preAnnounceSeconds = lead) := by
  simp only [initSchedule, u32of, u32sub, u64sub]
  constructor <;> intro hc <;> split_ifs with hs <;> dsimp only <;> omega

/-- Witness for `init_preannounce_clamping` at `now = 1000`,
`next = 3000`, `lead = 3600`: the clamp fires. -/
theorem init_preannounce_clamping_witness :
    (3000 - 1000 < 3600 →
      (initSchedule 1000 3000 3600).diffToPreAnnounce = 1 ∧
      (initSchedule 1000 3000 3600).timeToPreAnnounce = 1000 + 1 ∧
      (initSchedule 1000 3000 3600).preAnnounceSeconds = 3000 - 1000) ∧
    (3600 ≤ 3000 - 1000 →
      1000 + (initSchedule 1000 3000 3600).diffToPreAnnounce = 3000 - 3600 ∧
      (initSchedule 1000 3000 3600).timeToPreAnnounce = 3000 - 3600 ∧
      (initSchedule 1000 3000 3600).preAnnounceSeconds = 3600) :=
  init_preannounce_clamping 1000 3000 3600 (by decide) (by decide) (by decide)

/-- C10: the delegated shutdown lands at the announce task's fire instant
(`now` plus the scheduled delay) plus the grace seconds passed to
`ShutdownServ`; this equals `nextShutdown` exactly when no clamping occurs
(`leadSeconds ≤ secondsToShutdown`) and `nextShutdown + 1` when clamping
occurs. -/
theorem delegated_shutdown_lands_at_next (now next lead : Nat)
    (h1 : now ≤ next) (h2 : next < 2147483648) (h3 : lead ≤ 86400) :
    (lead ≤ next - now →
      now + (initSchedule now next lead).diffToPreAnnounce
        + (initSchedule now next lead).preAnnounceSeconds = next) ∧
    (next - now < lead →
      now + (initSchedule now next lead).diffToPreAnnounce
        + (initSchedule now next lead).preAnnounceSeconds = next + 1) := by
  simp only [initSchedule, u32of, u32sub, u64sub]
  constructor <;> intro hc <;> split_ifs with hs <;> dsimp only <;> omega

/-- Witness for `delegated_shutdown_lands_at_next` at `now = 1000`,
`next = 3000`, `lead = 3600` (clamped case): the shutdown lands at
`3001 = next + 1`. -/
theorem delegated_shutdown_lands_at_next_witness :
    (3600 ≤ 3000 - 1000 →
      1000 + (initSchedule 1000 3000 3600).diffToPreAnnounce
        + (initSchedule 1000 3000 3600).preAnnounceSeconds = 3000) ∧
    (3000 - 1000 < 3600 →
      1000 + (initSchedule 1000 3000 3600).diffToPreAnnounce
        + (initSchedule 1000 3000 3600).preAnnounceSeconds = 3000 + 1) :=
  delegated_shutdown_lands_at_next 1000 3000 3600 (by decide) (by decide) (by decide)

/-- Modelled from the spec: `Acore::Tokenize(str, sep, keepEmpty=false)`
(external to this repository) splits on the separator and drops empty
tokens.  `splitOn` is the raw split; strings are modelled as `List Char`. -/
def splitOn (sep : Char) : List Char → List (List Char)
  | [] => [[]]
  | c :: cs =>
    if c = sep then [] :: splitOn sep cs
    else
      match splitOn sep cs with
      | [] => [[c]]
      | t :: ts => (c :: t) :: ts

/-- Tokenization with `keepEmpty = false`, as both call sites use it. -/
def tokenize (sep : Char) (s : List Char) : List (List Char) :=
  (splitOn sep s).filter (fun t => !t.isEmpty)

/-- Accumulating decimal parse; fails on any non-digit character. -/
def parseDigits : List Char → Nat → Option Nat
  | [], acc => some acc
  | c :: cs, acc =>
    if c.isDigit then parseDigits cs (acc * 10 + (c.toNat - 48)) else none

/-- Modelled from the spec: `Acore::StringTo<T>` (external to this
repository) parses a whole decimal token, returning nothing on a
malformed token or a value outside `T`'s range (`maxVal`). -/
def stringTo (maxVal : Nat) (s : List Char) : Option Nat :=
  match s with
  | [] => none
  | _ =>
    match parseDigits s 0 with
    | none => none
    | some v => if v ≤ maxVal then some v else none

/-- The configuration values `Init` reads (src/ServerAutoShutdown.cpp:
69-77 and 190).  Integer options are already numeric (the config store
coerces them); the time string and the startup-event list are raw. -/
structure Config where
  enabled : Bool
  weekdayMask : Nat
  restartDays : Nat
  configTime : List Char
  preAnnounceSeconds : Nat
  startEvents : List Char

/-- Externally visible effects of `Init`, in program order. -/
inductive Ev where
  | cancelAll
  | shutdownCancel
  | startEvent (id : Nat)
  | schedule (diffToPreAnnounce preAnnounceSeconds : Nat)
deriving DecidableEq

/-- The token loop of `StartPersistentGameEvents`
(src/ServerAutoShutdown.cpp:195-205): empty tokens are skipped; a
non-empty token is parsed with `Acore::StringTo<uint32>` and the optional
is dereferenced WITHOUT a check (line 200) — a failed parse is undefined
behaviour, modelled as `none`. -/
def startEventsLoop : List (List Char) → Option (List Ev)
  | [] => some []
  | t :: ts =>
    if t.isEmpty then startEventsLoop ts
    else
      match stringTo 4294967295 t with
      | none => none
      | some id =>
        match startEventsLoop ts with
        | none => none
        | some evs => some (Ev.startEvent id :: evs)

/-- `StartPersistentGameEvents` (src/ServerAutoShutdown.cpp:188-206). -/
def startPersistentGameEvents (eventList : List Char) : Option (List Ev) :=
  startEventsLoop (tokenize ' ' eventList)

/-- The `CheckTime` lambda of `Init` (src/ServerAutoShutdown.cpp:88-94):
all three time tokens must convert to `uint8`. -/
def checkTime (tokens : List (List Char)) : Bool :=
  (stringTo 255 (tokens.getD 0 [])).isSome &&
  (stringTo 255 (tokens.getD 1 [])).isSome &&
  (stringTo 255 (tokens.getD 2 [])).isSome

/-- Result of `Init`: the `_isEnableModule` flag and the list of
externally visible effects in program order (`none` = undefined behaviour
was reached). -/
structure InitResult where
  isEnableModule : Bool
  events : Option (List Ev)
deriving DecidableEq

/-- `ServerAutoShutdown::Init` (src/ServerAutoShutdown.cpp:67-177).
Control flow in source order: the enable gate and the validation
early-returns (lines 71-126), the over-a-day lead clamp to one hour
(lines 128-132), the next-shutdown computation (lines 134-136),
`CancelAll` and `ShutdownCancel` (lines 144-145), the pre-announce
arithmetic and clamp (lines 151-160), `StartPersistentGameEvents`
(line 166), and finally the single `scheduler.Schedule` call whose action
captures the effective lead (lines 169-176). -/
def Init (cfg : Config) (nowTime : Nat) : InitResult :=
  if !cfg.enabled then ⟨false, some []⟩
  else
    let tokens := tokenize ':' cfg.configTime
    if tokens.length ≠ 3 then ⟨false, some []⟩
    else if !checkTime tokens then ⟨false, some []⟩
    else
      let restartHour := (stringTo 255 (tokens.getD 0 [])).getD 0
      let restartMinute := (stringTo 255 (tokens.getD 1 [])).getD 0
      let restartSecond := (stringTo 255 (tokens.getD 2 [])).getD 0
      if cfg.weekdayMask > 127 then ⟨false, some []⟩
      else if cfg.restartDays < 1 ∨ cfg.restartDays > 365 then ⟨false, some []⟩
      else if restartHour > 23 ∨ restartMinute > 59 ∨ restartSecond > 59 then ⟨false, some []⟩
      else
        let preAnnounce := if cfg.preAnnounceSeconds > DAY then HOUR else cfg.preAnnounceSeconds
        let nextResetTime := getNextShutdownTime nowTime cfg.weekdayMask cfg.restartDays
          restartHour restartMinute restartSecond
        let sched := initSchedule nowTime nextResetTime preAnnounce
        match startPersistentGameEvents cfg.startEvents with
        | none => ⟨true, none⟩
        | some evs =>
          ⟨true, some (Ev.cancelAll :: Ev.shutdownCancel ::
            (evs ++ [Ev.schedule sched.diffToPreAnnounce sched.preAnnounceSeconds]))⟩

/-- Every successful run of the event-start loop produces only
`startEvent` effects. -/
lemma startEventsLoop_shape (ts : List (List Char)) :
    ∀ evs, startEventsLoop ts = some evs →
      ∃ ids : List Nat, evs = List.map Ev.startEvent ids := by
  induction ts with
  | nil =>
    intro evs h
    refine ⟨[], ?_⟩
    simp only [startEventsLoop, Option.some.injEq] at h
    exact h.symm
  | cons t rest ih =>
    intro evs h
    by_cases he : t.isEmpty
    · exact ih evs (by simpa [startEventsLoop, he] using h)
    · simp only [startEventsLoop, he, Bool.false_eq_true, if_false] at h
      cases hs : stringTo 4294967295 t with
      | none => rw [hs] at h; exact absurd h (by simp)
      | some id =>
        rw [hs] at h
        cases hr : startEventsLoop rest with
        | none => rw [hr] at h; exact absurd h (by simp)
        | some evs2 =>
          rw [hr] at h
          obtain ⟨ids, hid⟩ := ih evs2 hr
          refine ⟨id :: ids, ?_⟩
          simp only [Option.some.injEq] at h
          subst hid
          simp [h.symm]

/-- Wrapper of `startEventsLoop_shape` for `startPersistentGameEvents`. -/
lemma startPersistentGameEvents_shape (s : List Char) (evs : List Ev)
    (h : startPersistentGameEvents s = some evs) :
    ∃ ids : List Nat, evs = List.map Ev.startEvent ids :=
  startEventsLoop_shape _ evs h

/-- Shape of a successful `Init`: the effect trace is exactly `CancelAll`,
then `ShutdownCancel`, then the started events, then the single
`Schedule` call. -/
lemma init_success_structure (cfg : Config) (nowTime : Nat) (l : List Ev)
    (h : (Init cfg nowTime).events = some l)
    (he : (Init cfg nowTime).isEnableModule = true) :
    ∃ (ids : List Nat) (d lead : Nat),
      l = Ev.cancelAll :: Ev.shutdownCancel ::
        (List.map Ev.startEvent ids ++ [Ev.schedule d lead]) := by
  simp only [Init] at h he
  split_ifs at h he
  all_goals
    first
    | exact absurd he Bool.false_ne_true
    | (cases hs : startPersistentGameEvents cfg.startEvents with
       | none =>
         rw [hs] at h
         exact absurd h (by simp)
       | some evs =>
         rw [hs] at h
         simp only [Option.some.injEq] at h
         obtain ⟨ids, hid⟩ := startPersistentGameEvents_shape _ evs hs
         subst hid
         exact ⟨ids, _, _, h.symm⟩)

/-- A disabled outcome of `Init` (the enable gate or any validation
early-return) produces no effects at all. -/
lemma init_disabled_events (cfg : Config) (nowTime : Nat)
    (hd : (Init cfg nowTime).isEnableModule = false) :
    (Init cfg nowTime).events = some [] := by
  simp only [Init] at hd ⊢
  split_ifs at hd ⊢
  all_goals try rfl
  all_goals
    cases hs : startPersistentGameEvents cfg.startEvents with
    | none => rw [hs] at hd; exact absurd hd (by simp)
    | some evs => rw [hs] at hd; exact absurd hd (by simp)

/-- C6 counterexample: a reload whose configuration is invalid (malformed
time string) returns early with no effects at all — in particular neither
`CancelAll` nor `ShutdownCancel` runs, so the cancellation is not
performed on every call. -/
theorem invalid_config_no_cancel :
    (Init ⟨true, 0, 1, ['b', 'a', 'd'], 3600, []⟩ 0).events = some [] ∧
    (Init ⟨true, 0, 1, ['b', 'a', 'd'], 3600, []⟩ 0).isEnableModule = false := by
  decide

/-- C6 (amended): a call to `Init` that passes configuration validation
cancels all pending tasks and clears any previously requested host
shutdown before starting events and before enqueuing the new task; a call
that fails validation (or finds the module disabled) performs no
cancellation at all — it returns early with an empty effect trace,
leaving the module disabled. -/
theorem init_cancel_discipline (cfg : Config) (nowTime : Nat) (l : List Ev)
    (h : (Init cfg nowTime).events = some l) :
    ((Init cfg nowTime).isEnableModule = false → l = []) ∧
    ((Init cfg nowTime).isEnableModule = true →
      ∃ (ids : List Nat) (d lead : Nat),
        l = Ev.cancelAll :: Ev.shutdownCancel ::
          (List.map Ev.startEvent ids ++ [Ev.schedule d lead])) := by
  constructor
  · intro he
    have h0 := init_disabled_events cfg nowTime he
    exact Option.some_injective _ (h.symm.trans h0)
  · intro he
    exact init_success_structure cfg nowTime l h he

/-- Witness for `init_cancel_discipline` on a valid configuration
(`"04:00:00"`, interval mode, lead 3600, `now = 0`). -/
theorem init_cancel_discipline_witness :
    ((Init ⟨true, 0, 1, ['0', '4', ':', '0', '0', ':', '0', '0'], 3600, []⟩ 0).isEnableModule
        = false →
      ([Ev.cancelAll, Ev.shutdownCancel, Ev.schedule 10800 3600] : List Ev) = []) ∧
    ((Init ⟨true, 0, 1, ['0', '4', ':', '0', '0', ':', '0', '0'], 3600, []⟩ 0).isEnableModule
        = true →
      ∃ (ids : List Nat) (d lead : Nat),
        ([Ev.cancelAll, Ev.shutdownCancel, Ev.schedule 10800 3600] : List Ev)
          = Ev.cancelAll :: Ev.shutdownCancel ::
            (List.map Ev.startEvent ids ++ [Ev.schedule d lead])) :=
  init_cancel_discipline ⟨true, 0, 1, ['0', '4', ':', '0', '0', ':', '0', '0'], 3600, []⟩ 0
    [Ev.cancelAll, Ev.shutdownCancel, Ev.schedule 10800 3600] (by decide)

/-- C7 counterexample: with `PreAnnounce.Seconds = 90000 > DAY` and an
otherwise valid configuration, `Init` does NOT disable the module and DOES
schedule: it stays enabled and enqueues the announce task with the lead
clamped to one hour. -/
theorem oversized_lead_still_schedules :
    (Init ⟨true, 0, 1, ['0', '4', ':', '0', '0', ':', '0', '0'], 90000, []⟩ 0).isEnableModule
      = true ∧
    (Init ⟨true, 0, 1, ['0', '4', ':', '0', '0', ':', '0', '0'], 90000, []⟩ 0).events
      = some [Ev.cancelAll, Ev.shutdownCancel, Ev.schedule 10800 3600] := by
  decide

/-- C7 (amended): `Init` treats a configured pre-announce lead exceeding
one full day as a soft error: it clamps the lead to one hour (`HOUR` =
3600 seconds) and continues — the call behaves exactly as if the lead had
been configured as 3600, and in particular the module stays enabled and
scheduling still happens. -/
theorem oversized_lead_clamped (cfg : Config) (nowTime : Nat)
    (h : cfg.preAnnounceSeconds > DAY) :
    Init cfg nowTime = Init { cfg with preAnnounceSeconds := HOUR } nowTime := by
  obtain ⟨en, wm, rd, ct, pa, se⟩ := cfg
  have h' : (if pa > DAY then HOUR else pa) = HOUR := if_pos h
  have h'' : (if HOUR > DAY then HOUR else HOUR) = HOUR := ite_self _
  simp only [Init, h', h'']

/-- Witness for `oversized_lead_clamped` at the concrete 90000-second
lead. -/
theorem oversized_lead_clamped_witness :
    Init ⟨true, 0, 1, ['0', '4', ':', '0', '0', ':', '0', '0'], 90000, []⟩ 0 =
      Init { (⟨true, 0, 1, ['0', '4', ':', '0', '0', ':', '0', '0'], 90000, []⟩ : Config) with
        preAnnounceSeconds := HOUR } 0 :=
  oversized_lead_clamped ⟨true, 0, 1, ['0', '4', ':', '0', '0', ':', '0', '0'], 90000, []⟩ 0
    (by decide)

/-- C8: evaluation of the code at a failing input.  With an otherwise
valid configuration and `ServerAutoShutdown.StartEvents = "abc"`,
`StartPersistentGameEvents` dereferences the empty optional returned by
`Acore::StringTo<uint32>` without a check (src/ServerAutoShutdown.cpp:200)
— undefined behaviour, modelled as `events = none`. -/
theorem bad_event_token_reaches_unchecked_deref :
    (Init ⟨true, 0, 1, ['0', '4', ':', '0', '0', ':', '0', '0'], 3600, ['a', 'b', 'c']⟩ 0).events
      = none := by
  decide

/-- Recogniser of `schedule` effects. -/
def isScheduleEv : Ev → Bool
  | Ev.cancelAll => false
  | Ev.shutdownCancel => false
  | Ev.startEvent _ => false
  | Ev.schedule _ _ => true

/-- Filtering the started-event effects leaves no `schedule` effect. -/
lemma filter_schedule_map_startEvent (ids : List Nat) :
    (List.map Ev.startEvent ids).filter isScheduleEv = [] := by
  induction ids with
  | nil => rfl
  | cons i rest ih => simp [isScheduleEv, ih]

/-- C9: after a successful `Init` the scheduler holds at most two pending
tasks — in fact the whole effect trace contains exactly one `Schedule`
call (the pre-announce task); the shutdown is not a separately tracked
task, and the instant of the delegated shutdown (announce fire time plus
the grace period handed to `ShutdownServ`) is at or after the announce
task's fire time. -/
theorem init_single_scheduled_task (cfg : Config) (nowTime : Nat) (l : List Ev)
    (h : (Init cfg nowTime).events = some l)
    (he : (Init cfg nowTime).isEnableModule = true) :
    (l.filter isScheduleEv).length ≤ 2 ∧
    ∃ d lead, l.filter isScheduleEv = [Ev.schedule d lead] ∧
      nowTime + d ≤ nowTime + d + lead := by
  obtain ⟨ids, d, lead, rfl⟩ := init_success_structure cfg nowTime l h he
  have hf : (Ev.cancelAll :: Ev.shutdownCancel ::
      (List.map Ev.startEvent ids ++ [Ev.schedule d lead])).filter isScheduleEv
      = [Ev.schedule d lead] := by
    simp [isScheduleEv, List.filter_append, filter_schedule_map_startEvent]
  rw [hf]
  exact ⟨by simp, d, lead, rfl, Nat.le_add_right _ _⟩

/-- Witness for `init_single_scheduled_task` on the valid configuration
used above. -/
theorem init_single_scheduled_task_witness :
    (([Ev.cancelAll, Ev.shutdownCancel, Ev.schedule 10800 3600] : List Ev).filter
        isScheduleEv).length ≤ 2 ∧
    ∃ d lead,
      ([Ev.cancelAll, Ev.shutdownCancel, Ev.schedule 10800 3600] : List Ev).filter isScheduleEv
        = [Ev.schedule d lead] ∧ 0 + d ≤ 0 + d + lead :=
  init_single_scheduled_task ⟨true, 0, 1, ['0', '4', ':', '0', '0', ':', '0', '0'], 3600, []⟩ 0
    [Ev.cancelAll, Ev.shutdownCancel, Ev.schedule 10800 3600] (by decide) (by decide)

end ServerAutoShutdown
